import Mathlib

/-!
# Verification of the UV face-filter pixel pipeline (`main.js`)

A shallow embedding of the per-frame image pipeline of the UV face-filter.
JavaScript numbers are modelled as exact rationals (`ℚ`); stores into a
`Uint8ClampedArray` are modelled by `toUint8Clamp` (clamp to `[0, 255]` and
round half to even, as the HTML spec's `ToUint8Clamp` prescribes); the
mutable per-instance fields touched by the stabilizer and the scheduler are
made explicit state records.  Transcendental quantities that the source
computes with `Math.exp` / `Math.sqrt` (the adaptive Gaussian feather
amount and the point-to-polygon distance) enter the embedded functions as
explicit function parameters, so every theorem below quantifies over them;
all remaining arithmetic follows the source line by line.
-/

namespace UVFilter

/-- One facial landmark: normalized x, y and an optional relative depth z
(`z` may be absent, matching the `!== undefined` checks in the source). -/
structure Landmark where
  x : ℚ
  y : ℚ
  z : Option ℚ
deriving DecidableEq, Repr

/-- A projected pixel-space point (`{x: l.x * width, y: l.y * height}`). -/
structure Point where
  x : ℚ
  y : ℚ
deriving DecidableEq, Repr

/-- One RGBA sample of a pixel buffer; channels are the integers a
`Uint8ClampedArray` actually holds (0–255). -/
structure RGBA where
  r : ℕ
  g : ℕ
  b : ℕ
  a : ℕ
deriving DecidableEq, Repr

/-- `clamp(value)` from the source: `Math.max(0, Math.min(255, value))`. -/
def clamp (v : ℚ) : ℚ := max 0 (min 255 v)

/-- `lerp(a, b, t)` from the source: `a + (b - a) * t`. -/
def lerp (a b t : ℚ) : ℚ := a + (b - a) * t

/-- Round to the nearest integer, ties to even — the rounding mode of
`ToUint8Clamp` for stores into a `Uint8ClampedArray` (written with the
executable `Rat.floor`). -/
def roundHalfEven (v : ℚ) : ℤ :=
  if v - v.floor < 1/2 then v.floor
  else if 1/2 < v - v.floor then v.floor + 1
  else if v.floor % 2 = 0 then v.floor else v.floor + 1

theorem ratFloor_eq_floor (v : ℚ) : v.floor = ⌊v⌋ := by
  rw [Rat.floor_def', Rat.floor_def]

/-- Storing a number into a `Uint8ClampedArray` slot: clamp to `[0, 255]`
and round half to even. -/
def toUint8Clamp (v : ℚ) : ℕ :=
  if v ≤ 0 then 0
  else if 255 ≤ v then 255
  else (roundHalfEven v).toNat

theorem lerp_one (a b : ℚ) : lerp a b 1 = b := by
  unfold lerp; ring

theorem roundHalfEven_ge_floor (v : ℚ) : ⌊v⌋ ≤ roundHalfEven v := by
  unfold roundHalfEven
  simp only [ratFloor_eq_floor]
  split_ifs <;> omega

theorem roundHalfEven_le_floor_add_one (v : ℚ) : roundHalfEven v ≤ ⌊v⌋ + 1 := by
  unfold roundHalfEven
  simp only [ratFloor_eq_floor]
  split_ifs <;> omega

/-- A `Uint8ClampedArray` store of a value that is already a natural number
`≤ 255` keeps it unchanged. -/
theorem toUint8Clamp_natCast {n : ℕ} (hn : n ≤ 255) : toUint8Clamp (n : ℚ) = n := by
  unfold toUint8Clamp roundHalfEven
  simp only [ratFloor_eq_floor]
  rcases Nat.eq_zero_or_pos n with h0 | hpos
  · subst h0; norm_num
  · rcases eq_or_lt_of_le hn with h255eq | h255lt
    · subst h255eq; norm_num
    have hpos' : (0 : ℚ) < n := by exact_mod_cast hpos
    have h255 : ¬ (255 : ℚ) ≤ n := by
      intro h
      have h' : (255 : ℕ) ≤ n := by exact_mod_cast h
      omega
    rw [if_neg (by linarith), if_neg h255]
    have hfl : ⌊(n : ℚ)⌋ = (n : ℤ) := Int.floor_natCast n
    have hfrac : (n : ℚ) - (⌊(n : ℚ)⌋ : ℚ) = 0 := by
      rw [hfl]; push_cast; ring
    rw [if_pos (by rw [hfrac]; norm_num), hfl]
    exact Int.toNat_natCast n

/-- Lower bound for clamped stores: a store of `v ≥ m` (with `m ≤ 255`) is
at least `m`. -/
theorem le_toUint8Clamp {v : ℚ} {m : ℕ} (hm : m ≤ 255) (h : (m : ℚ) ≤ v) :
    m ≤ toUint8Clamp v := by
  unfold toUint8Clamp
  split_ifs with h0 h255
  · have : (m : ℚ) ≤ 0 := le_trans h h0
    have : m = 0 := by exact_mod_cast le_antisymm (by exact_mod_cast this) (Nat.zero_le m)
    omega
  · omega
  · have hfl : (m : ℤ) ≤ ⌊v⌋ := by
      have : ((m : ℤ) : ℚ) ≤ v := by push_cast; exact h
      exact Int.le_floor.mpr this
    have hr := roundHalfEven_ge_floor v
    have : (m : ℤ) ≤ roundHalfEven v := le_trans hfl hr
    omega

/-- Upper bound for clamped stores: a store of `v ≤ M` (with `M` a natural
number `≤ 255`) is at most `M`. -/
theorem toUint8Clamp_le {v : ℚ} {M : ℕ} (hM : M ≤ 255) (h : v ≤ (M : ℚ)) :
    toUint8Clamp v ≤ M := by
  unfold toUint8Clamp
  split_ifs with h0 h255
  · omega
  · have : (255 : ℚ) ≤ (M : ℚ) := le_trans h255 h
    have : (255 : ℕ) ≤ M := by exact_mod_cast this
    omega
  · -- interior case: 0 < v < 255
    have hv0 : (0 : ℚ) < v := lt_of_not_ge (by simpa using h0)
    unfold roundHalfEven
    simp only [ratFloor_eq_floor]
    split_ifs with hfrac hfrac2 heven
    · -- round down to ⌊v⌋ ≤ M
      have : ⌊v⌋ ≤ (M : ℤ) := by
        have := Int.floor_le_floor h
        simpa [Int.floor_natCast] using this
      omega
    · -- frac > 1/2: v is not an integer and v ≤ M forces ⌊v⌋ + 1 ≤ M
      have hlt : (⌊v⌋ : ℚ) < (M : ℚ) := by
        have h1 : (⌊v⌋ : ℚ) + 1/2 < v := by linarith
        linarith
      have : ⌊v⌋ < (M : ℤ) := by exact_mod_cast hlt
      omega
    · have : ⌊v⌋ ≤ (M : ℤ) := by
        have := Int.floor_le_floor h
        simpa [Int.floor_natCast] using this
      omega
    · -- frac = 1/2 exactly, rounding up: again v is not an integer
      have hfr : v - ⌊v⌋ = 1/2 := le_antisymm (not_lt.mp hfrac2) (not_lt.mp hfrac)
      have hlt : (⌊v⌋ : ℚ) < (M : ℚ) := by
        have : v = (⌊v⌋ : ℚ) + 1/2 := by linarith
        linarith
      have : ⌊v⌋ < (M : ℤ) := by exact_mod_cast hlt
      omega

/-! ## Color Remapper (`applyUVLUT`, main.js lines 1876–1937) -/

/-- The region tag passed to `applyUVLUT` ('skin' | 'eye' | 'lip' | 'hair';
`other` stands for any string hitting the `default` branch). -/
inductive RegionType where
  | skin
  | eye
  | lip
  | hair
  | other
deriving DecidableEq, Repr

/-- `applyUVLUT(r, g, b, type)`: the per-region nonlinear color remap,
transcribed literally (`0.35 = 35/100`, etc.).  It reads nothing but its
four arguments — the JavaScript function references no instance state. -/
def applyUVLUT (r g b : ℚ) (type : RegionType) : ℚ × ℚ × ℚ :=
  match type with
  | .skin =>
    let brightness := (r + g + b) / 3
    if brightness > 140 then
      (min 255 (max 40 (brightness * (35/100) + g * (25/100))),
       min 255 (max 140 (brightness * (75/100) + g * (40/100))),
       min 255 (max 180 (brightness * (95/100) + b * (50/100))))
    else
      (min 255 (max 20 (r * (25/100) + b * (15/100))),
       min 255 (max 80 (g * (70/100) + b * (60/100))),
       min 255 (max 140 (b * (120/100) + g * (50/100))))
  | .eye =>
    let eyeBrightness := (r + g + b) / 3
    if eyeBrightness > 80 then
      (min 255 (200 + eyeBrightness * (30/100)),
       min 255 (200 + eyeBrightness * (30/100)),
       min 255 (220 + eyeBrightness * (25/100)))
    else
      (max 0 (eyeBrightness * (20/100)),
       max 0 (eyeBrightness * (20/100)),
       max 0 (eyeBrightness * (25/100)))
  | .lip =>
    (min 255 (max 0 (g * (30/100) + r * (10/100))),
     min 255 (max 100 (g * (90/100) + b * (40/100))),
     min 255 (max 120 (g * (50/100) + b * (80/100))))
  | .hair =>
    let hairBrightness := (r + g + b) / 3
    (min 255 (180 + hairBrightness * (30/100)),
     min 255 (200 + hairBrightness * (30/100)),
     min 255 (220 + hairBrightness * (30/100)))
  | .other => (r, g, b)

/-! ## Whole-frame fallback inversion (`invertColors`, lines 2283–2290) -/

/-- The per-pixel body of `invertColors`: `data[i] = 255 - data[i]` on the
three color channels, the alpha byte untouched. -/
def invertPixelRGBA (p : RGBA) : RGBA :=
  { r := 255 - p.r, g := 255 - p.g, b := 255 - p.b, a := p.a }

/-- `invertColors(imageData)`: the whole-buffer loop stepping by 4 bytes,
i.e. a map of `invertPixelRGBA` over the pixel sequence. -/
def invertColors (buf : List RGBA) : List RGBA :=
  buf.map invertPixelRGBA

/-! ## Landmark Stabilizer (`smoothLandmarks`, lines 1042–1078) -/

/-- `this.smoothingAlpha = 0.75` (constructor, line 92). -/
def smoothingAlpha : ℚ := 75/100

/-- `this.maxHistoryFrames = 5` (constructor, line 91). -/
def maxHistoryFrames : ℕ := 5

/-- The instance fields `smoothLandmarks` reads and writes:
`lastLandmarks`, `emaLandmarks` and `landmarkHistory`. -/
structure StabState where
  lastLandmarks : Option (List Landmark)
  emaLandmarks : Option (List Landmark)
  landmarkHistory : List (List Landmark)
deriving DecidableEq, Repr

/-- The loop body of the EMA update for one landmark:
`alpha * ema[i] + (1 - alpha) * new[i]` on x and y, and on z only when
both sides carry a z (`!== undefined` on both), else the raw z. -/
def smoothPoint (alpha : ℚ) (prev cur : Landmark) : Landmark :=
  { x := alpha * prev.x + (1 - alpha) * cur.x
    y := alpha * prev.y + (1 - alpha) * cur.y
    z := match prev.z, cur.z with
         | some pz, some cz => some (alpha * pz + (1 - alpha) * cz)
         | _, _ => cur.z }

/-- `landmarkHistory.push(smoothed)` followed by a `shift()` when the
history exceeds `maxHistoryFrames`. -/
def pushHistory (hist : List (List Landmark)) (entry : List Landmark) :
    List (List Landmark) :=
  let h := hist ++ [entry]
  if h.length > maxHistoryFrames then h.tail else h

/-- `smoothLandmarks(newLandmarks)`.  The outer `Option` models abnormal
termination: the EMA loop indexes `this.emaLandmarks[i]` for every
`i < newLandmarks.length`, so a new set longer than the stored EMA state
dereferences `undefined` and throws a `TypeError` (modelled as `none`).
The inner `Option` is the function's return value (`undefined` when there
is neither a previous result nor EMA state).  A null argument and an empty
array take the same first branch, so the argument is a plain list. -/
def smoothLandmarks (s : StabState) (newLandmarks : List Landmark) :
    Option (Option (List Landmark) × StabState) :=
  if newLandmarks.length = 0 then
    some (s.lastLandmarks.orElse (fun _ => s.emaLandmarks), s)
  else
    match s.emaLandmarks with
    | none =>
      -- first frame: `this.emaLandmarks = newLandmarks.map(l => ({...l}))`
      some (some newLandmarks, { s with emaLandmarks := some newLandmarks })
    | some ema =>
      if ema.length < newLandmarks.length then
        none  -- TypeError: `this.emaLandmarks[i]` is undefined for i ≥ ema.length
      else
        let smoothed := List.zipWith (smoothPoint smoothingAlpha) ema newLandmarks
        some (some smoothed,
              { s with
                emaLandmarks := some smoothed
                landmarkHistory := pushHistory s.landmarkHistory smoothed })

/-! ## Frame scheduler / fallback latch (lines 628–656 and 671–704) -/

/-- The two instance fields governing the fallback ("degraded") behaviour:
`faceMeshFailCount` and `fallbackActive`. -/
structure SchedState where
  failCount : ℕ
  fallbackActive : Bool
deriving DecidableEq, Repr

/-- A successful `faceMesh.send` resets the failure counter
(`this.faceMeshFailCount = 0`, line 681). -/
def onSendSuccess (s : SchedState) : SchedState :=
  { s with failCount := 0 }

/-- A `faceMesh.send` error increments the counter and, at 5 consecutive
failures, activates fallback (`this.fallbackActive = true`, lines 693–700). -/
def onSendError (s : SchedState) : SchedState :=
  let fc := s.failCount + 1
  { failCount := fc
    fallbackActive := if 5 ≤ fc then true else s.fallbackActive }

/-- The `onResults` callback (lines 628–656): when the results carry a face
it clears the fallback flag (`this.fallbackActive = false`, line 649);
with no face it leaves the state as it is. -/
def onFaceMeshResults (hasFace : Bool) (s : SchedState) : SchedState :=
  if hasFace then { s with fallbackActive := false } else s

/-! ## Region Mask Builder (lines 1419–1535, 1694–1810)

The mask builders project fixed landmark-index lists to pixel space,
then fill a `width * height` scalar field (row-major, `idx = y * width + x`,
zero-initialised like a `Float32Array`).  `distanceToPolygon` computes a
Euclidean point-to-polygon distance through `Math.sqrt`; that irrational
quantity enters here as an explicit function parameter `dist`, so all
theorems hold for every distance function, the source's included. -/

/-- `getEyeLandmarks().left` (line 235). -/
def eyeLandmarksLeft : List ℕ :=
  [33, 7, 163, 144, 145, 153, 154, 155, 133, 173, 157, 158, 159, 160, 161, 246]

/-- `getEyeLandmarks().right` (line 236). -/
def eyeLandmarksRight : List ℕ :=
  [362, 382, 381, 380, 374, 373, 390, 249, 263, 466, 388, 387, 386, 385, 384, 398]

/-- `getEyebrowLandmarks().left` (line 242). -/
def eyebrowLandmarksLeft : List ℕ := [107, 55, 65, 52, 53, 46, 70, 63, 105, 66, 69]

/-- `getEyebrowLandmarks().right` (line 243). -/
def eyebrowLandmarksRight : List ℕ :=
  [336, 296, 334, 293, 300, 276, 283, 282, 295, 285, 336]

/-- `getLipLandmarks()` (lines 247–253). -/
def lipLandmarks : List ℕ :=
  [61, 146, 91, 181, 84, 17, 314, 405, 320, 307, 375, 321, 308, 324, 318,
   13, 82, 81, 80, 78, 95, 88, 178, 87, 14, 317, 402, 318, 324,
   12, 268, 271, 272, 407, 415, 310, 311, 312]

/-- The face-outline index list (jawline, cheeks, forehead) used by both
`createPersonMask` and `createStrictBinarySkinMask` (lines 1424–1431,
1491–1498). -/
def faceOutlineIndices : List ℕ :=
  [172, 136, 150, 149, 176, 148, 152, 377, 400, 378, 379, 365, 397, 288, 361, 323,
   234, 454, 227, 447,
   10, 151, 9]

/-- Hairline indices of `createHairMask` (line 1697). -/
def hairMaskIndices : List ℕ :=
  [10, 151, 9, 107, 55, 65, 52, 53, 46, 336, 296, 334, 293, 300]

/-- The index-projection pattern shared by every builder:
`indices.filter(idx => idx < landmarks.length).map(idx => ({x: landmarks[idx].x * width, y: landmarks[idx].y * height}))`. -/
def projectPoints (indices : List ℕ) (landmarks : List Landmark) (w h : ℕ) :
    List Point :=
  (indices.filter (fun idx => idx < landmarks.length)).map
    (fun idx =>
      let l := landmarks.getD idx ⟨0, 0, none⟩
      { x := l.x * w, y := l.y * h })

/-- `isPointInPolygon(x, y, points)` (lines 1538–1549): ray casting with the
`j = i++` predecessor pattern (`j` starts at `points.length - 1`).  The
division is only reached when `yi > y` and `yj > y` differ, which forces
`yj ≠ yi`. -/
def isPointInPolygon (x y : ℚ) (points : List Point) : Bool :=
  (List.range points.length).foldl
    (fun inside i =>
      let pI := points.getD i ⟨0, 0⟩
      let pJ := points.getD ((i + points.length - 1) % points.length) ⟨0, 0⟩
      if (decide (pI.y > y) ≠ decide (pJ.y > y)) ∧
          x < (pJ.x - pI.x) * (y - pI.y) / (pJ.y - pI.y) + pI.x
      then !inside else inside)
    false

/-- The type of the abstracted `distanceToPolygon(x, y, points)`. -/
abbrev DistFn := ℚ → ℚ → List Point → ℚ

/-- The row-major mask fill `mask[y * width + x] = f(x, y)` over the full
pixel grid. -/
def buildMaskGrid (w h : ℕ) (f : ℚ → ℚ → ℚ) : List ℚ :=
  (List.range (w * h)).map (fun idx => f ((idx % w : ℕ) : ℚ) ((idx / w : ℕ) : ℚ))

/-- `createEyeMask(landmarks, width, height)` (lines 1725–1752): polygon
distance falloff with radius 25 inside a 30px band; pixels outside the
band keep the `Float32Array` zero. -/
def createEyeMask (dist : DistFn) (landmarks : List Landmark) (w h : ℕ) :
    List ℚ :=
  let eyePoints := projectPoints (eyeLandmarksLeft ++ eyeLandmarksRight) landmarks w h
  if eyePoints.length = 0 then List.replicate (w * h) 0
  else
    buildMaskGrid w h (fun x y =>
      let d := dist x y eyePoints
      if d < 30 then max 0 (1 - d / 25) else 0)

/-- `createLipMask` (lines 1754–1781): radius 20 inside a 25px band. -/
def createLipMask (dist : DistFn) (landmarks : List Landmark) (w h : ℕ) :
    List ℚ :=
  let lipPoints := projectPoints lipLandmarks landmarks w h
  if lipPoints.length = 0 then List.replicate (w * h) 0
  else
    buildMaskGrid w h (fun x y =>
      let d := dist x y lipPoints
      if d < 25 then max 0 (1 - d / 20) else 0)

/-- `createEyebrowMask` (lines 1783–1810): radius 15 inside a 20px band. -/
def createEyebrowMask (dist : DistFn) (landmarks : List Landmark) (w h : ℕ) :
    List ℚ :=
  let eyebrowPoints :=
    projectPoints (eyebrowLandmarksLeft ++ eyebrowLandmarksRight) landmarks w h
  if eyebrowPoints.length = 0 then List.replicate (w * h) 0
  else
    buildMaskGrid w h (fun x y =>
      let d := dist x y eyebrowPoints
      if d < 20 then max 0 (1 - d / 15) else 0)

/-- `Math.max(...points.map(p => p.y))` for a nonempty list. -/
def listMaxY : List Point → ℚ
  | [] => 0
  | p :: rest => rest.foldl (fun m q => max m q.y) p.y

/-- `Math.min(...points.map(p => p.y))` for a nonempty list. -/
def listMinY : List Point → ℚ
  | [] => 0
  | p :: rest => rest.foldl (fun m q => min m q.y) p.y

/-- `Math.max(...points.map(p => p.x))` for a nonempty list. -/
def listMaxX : List Point → ℚ
  | [] => 0
  | p :: rest => rest.foldl (fun m q => max m q.x) p.x

/-- `Math.min(...points.map(p => p.x))` for a nonempty list. -/
def listMinX : List Point → ℚ
  | [] => 0
  | p :: rest => rest.foldl (fun m q => min m q.x) p.x

/-- `createHairMask` (lines 1694–1723): falloff of radius 80 around the
hairline polygon, applied only to rows above `bottomY + 50`. -/
def createHairMask (dist : DistFn) (landmarks : List Landmark) (w h : ℕ) :
    List ℚ :=
  let hairlinePoints := projectPoints hairMaskIndices landmarks w h
  if hairlinePoints.length = 0 then List.replicate (w * h) 0
  else
    let bottomY := listMaxY hairlinePoints
    buildMaskGrid w h (fun x y =>
      if y < bottomY + 50 then
        let d := dist x y hairlinePoints
        if d < 80 then max 0 (1 - d / 80) else 0
      else 0)

/-- `createPersonMask(landmarks, width, height)` (lines 1420–1472): face
outline polygon OR an estimated body rectangle below the face bounding box
(±30% width padding, 2.5× height extension), binary 1/0. -/
def createPersonMask (landmarks : List Landmark) (w h : ℕ) : List ℚ :=
  let faceOutlinePoints := projectPoints faceOutlineIndices landmarks w h
  if faceOutlinePoints.length = 0 then List.replicate (w * h) 0
  else
    let faceMinX := listMinX faceOutlinePoints
    let faceMaxX := listMaxX faceOutlinePoints
    let faceMinY := listMinY faceOutlinePoints
    let faceMaxY := listMaxY faceOutlinePoints
    let personMinX := max 0 (faceMinX - (faceMaxX - faceMinX) * (30/100))
    let personMaxX := min (w : ℚ) (faceMaxX + (faceMaxX - faceMinX) * (30/100))
    let _personMinY := faceMinY
    let personMaxY := min (h : ℚ) (faceMaxY + (faceMaxY - faceMinY) * (250/100))
    buildMaskGrid w h (fun x y =>
      let insideFace := isPointInPolygon x y faceOutlinePoints
      let inBodyArea :=
        personMinX ≤ x ∧ x ≤ personMaxX ∧ faceMaxY ≤ y ∧ y ≤ personMaxY
      if insideFace = true ∨ inBodyArea then 1 else 0)

/-- `createBackgroundMask(personMask, width, height)` (lines 1475–1484):
`mask[i] = personMask[i] > 0.5 ? 0 : 1`. -/
def createBackgroundMask (personMask : List ℚ) : List ℚ :=
  personMask.map (fun v => if v > 1/2 then 0 else 1)

/-- `createStrictBinarySkinMask(landmarks, width, height)` (lines
1487–1535): binary — 1 iff the pixel is inside the face-outline polygon
and not claimed by the eye/lip/eyebrow (> 0.1) or hair (> 0.3) masks. -/
def createStrictBinarySkinMask (dist : DistFn) (landmarks : List Landmark)
    (w h : ℕ) : List ℚ :=
  let faceOutlinePoints := projectPoints faceOutlineIndices landmarks w h
  if faceOutlinePoints.length = 0 then List.replicate (w * h) 0
  else
    let eyeM := createEyeMask dist landmarks w h
    let lipM := createLipMask dist landmarks w h
    let browM := createEyebrowMask dist landmarks w h
    let hairM := createHairMask dist landmarks w h
    (List.range (w * h)).map (fun idx =>
      let x : ℚ := ((idx % w : ℕ) : ℚ)
      let y : ℚ := ((idx / w : ℕ) : ℚ)
      let insideFace := isPointInPolygon x y faceOutlinePoints
      let isExcluded :=
        eyeM.getD idx 0 > 1/10 ∨ lipM.getD idx 0 > 1/10 ∨
        browM.getD idx 0 > 1/10 ∨ hairM.getD idx 0 > 3/10
      if insideFace = true ∧ ¬ isExcluded then 1 else 0)

/-! ## Edge Feather Engine (`applyFeatherToMask`, lines 1552–1614)

The zone-adaptive Gaussian amount
`Math.exp(-(|v - 0.5| * 2 * size)² / (2 * size²))` — whose feather `size`
is picked from the landmark distances to the jawline / hairline / cheek
curves — is transcendental, so it enters as a parameter
`featherAmt idx maskValue`; the guard and the blend around it are
transcribed literally. -/

/-- The per-pixel body of the feather loop: pixels with `0 < mask < 1` are
blended by `clamp01(mask + (1 - mask) * feather * 0.5)`; all other pixels
keep the copied input value. -/
def featherMaskValue (feather : ℚ) (maskValue : ℚ) : ℚ :=
  if 0 < maskValue ∧ maskValue < 1 then
    max 0 (min 1 (maskValue + (1 - maskValue) * feather * (1/2)))
  else maskValue

/-- `applyFeatherToMask(binaryMask, landmarks, width, height)`: a copy of
the input with the edge-pixel blend applied at every index. -/
def applyFeatherToMask (featherAmt : ℕ → ℚ → ℚ) (mask : List ℚ) : List ℚ :=
  (List.range mask.length).map
    (fun idx => featherMaskValue (featherAmt idx (mask.getD idx 0)) (mask.getD idx 0))

/-! ## Per-pixel bodies of `applyUVFilter` STEPs 6–11 (lines 1187–1387) -/

/-- STEP 6 (lines 1222–1263): background clamping.  Pixels with
`backgroundMask > 0.5` get shadow suppression (`luminance < 60` and
`saturation < 0.3` → `luminance * 0.3`) or a 15% darkening; all other
pixels are copied from the original. -/
def processBackgroundPixel (bgMaskValue : ℚ) (p : RGBA) : RGBA :=
  if bgMaskValue > 1/2 then
    let r : ℚ := p.r
    let g : ℚ := p.g
    let b : ℚ := p.b
    let luminance := (r + g + b) / 3
    let maxChannel := max r (max g b)
    let minChannel := min r (min g b)
    let saturation := if maxChannel > 0 then (maxChannel - minChannel) / maxChannel else 0
    if luminance < 60 ∧ saturation < 3/10 then
      { r := toUint8Clamp (max 0 (luminance * (30/100)))
        g := toUint8Clamp (max 0 (luminance * (30/100)))
        b := toUint8Clamp (max 0 (luminance * (30/100)))
        a := p.a }
    else
      let darkened := luminance * (85/100)
      { r := toUint8Clamp (clamp darkened)
        g := toUint8Clamp (clamp darkened)
        b := toUint8Clamp (clamp darkened)
        a := p.a }
  else p

/-- STEP 7 (lines 1268–1303): inside the feathered skin mask the original
pixel is inverted and remapped through exactly one LUT branch, chosen by
`eyeMask > 0.1`, else `lipMask > 0.1`, else skin; outside the mask the
pixel stays the background-processed copy. -/
def processSkinPixel (maskValue eyeValue lipValue : ℚ) (orig bgProcessed : RGBA) :
    RGBA :=
  if maskValue > 0 then
    let invertedR : ℚ := 255 - (orig.r : ℚ)
    let invertedG : ℚ := 255 - (orig.g : ℚ)
    let invertedB : ℚ := 255 - (orig.b : ℚ)
    let uvColor :=
      if eyeValue > 1/10 then applyUVLUT invertedR invertedG invertedB .eye
      else if lipValue > 1/10 then applyUVLUT invertedR invertedG invertedB .lip
      else applyUVLUT invertedR invertedG invertedB .skin
    { r := toUint8Clamp uvColor.1
      g := toUint8Clamp uvColor.2.1
      b := toUint8Clamp uvColor.2.2
      a := orig.a }
  else bgProcessed

/-- `strength = 0.4` of the S-curve (line 1985). -/
def sCurveStrength : ℚ := 2/5

/-- The S-curve on a normalized channel (lines 1987–1993). -/
def sCurve (t : ℚ) : ℚ :=
  if t < 1/2 then t * (1 - sCurveStrength) + t * t * sCurveStrength * 2
  else t * (1 - sCurveStrength) + (1 - (1 - t) * (1 - t)) * sCurveStrength

/-- STEP 7c, `applySCurveContrastToMask` (lines 1982–2018): the S-curve is
applied only where the mask is positive. -/
def sCurvePixel (maskValue : ℚ) (p : RGBA) : RGBA :=
  if maskValue > 0 then
    { r := toUint8Clamp (clamp (sCurve ((p.r : ℚ) / 255) * 255))
      g := toUint8Clamp (clamp (sCurve ((p.g : ℚ) / 255) * 255))
      b := toUint8Clamp (clamp (sCurve ((p.b : ℚ) / 255) * 255))
      a := p.a }
  else p

/-- `this.colorSmoothingAlpha = 0.7` (constructor, line 97). -/
def colorSmoothingAlpha : ℚ := 7/10

/-- One channel of STEP 8 (lines 1323–1328):
`alpha * previous + (1 - alpha) * current`, stored back into the clamped
byte array. -/
def temporalBlendChannel (prev cur : ℕ) : ℕ :=
  toUint8Clamp (colorSmoothingAlpha * (prev : ℚ) + (1 - colorSmoothingAlpha) * (cur : ℚ))

/-- STEP 8 (lines 1313–1331): with a previous-frame buffer present, pixels
inside the mask are blended channelwise (alpha untouched); without one, or
outside the mask, the current pixel passes through. -/
def temporalBlendPixel (maskValue : ℚ) (lastProcessed : Option RGBA) (cur : RGBA) :
    RGBA :=
  match lastProcessed with
  | none => cur
  | some prev =>
    if maskValue > 0 then
      { r := temporalBlendChannel prev.r cur.r
        g := temporalBlendChannel prev.g cur.g
        b := temporalBlendChannel prev.b cur.b
        a := cur.a }
    else cur

/-- STEP 9 (lines 1338–1364): the compositor.  `featheredMask > 0` →
`lerp(backgroundProcessed, skinProcessed, mask)`; else `backgroundMask >
0.5` → the processed background; else the original pixel. -/
def compositePixel (maskValue bgMaskValue : ℚ) (orig bgP skinP : RGBA) : RGBA :=
  if maskValue > 0 then
    { r := toUint8Clamp (lerp (bgP.r : ℚ) (skinP.r : ℚ) maskValue)
      g := toUint8Clamp (lerp (bgP.g : ℚ) (skinP.g : ℚ) maskValue)
      b := toUint8Clamp (lerp (bgP.b : ℚ) (skinP.b : ℚ) maskValue)
      a := orig.a }
  else if bgMaskValue > 1/2 then { r := bgP.r, g := bgP.g, b := bgP.b, a := orig.a }
  else orig

/-- STEP 11, `applySubtleVignette` (lines 2066–2085): the darkening factor
`Math.pow(dist / maxDist, 2) * 0.05`, written squared so the two
`Math.sqrt` calls cancel: `(dist² / maxDist²) * 0.05`. -/
def vignetteFactor (w h x y : ℚ) : ℚ :=
  (((x - w/2)^2 + (y - h/2)^2) / ((w/2)^2 + (h/2)^2)) * (5/100)

/-- One pixel of the vignette pass:
`data[i] = clamp(data[i] * (1 - vignette))`. -/
def vignettePixel (v : ℚ) (p : RGBA) : RGBA :=
  { r := toUint8Clamp (clamp ((p.r : ℚ) * (1 - v)))
    g := toUint8Clamp (clamp ((p.g : ℚ) * (1 - v)))
    b := toUint8Clamp (clamp ((p.b : ℚ) * (1 - v)))
    a := p.a }

/-- STEPs 6–9 composed for one pixel: background clamp, masked UV remap,
masked S-curve, temporal blend, composite — everything of `applyUVFilter`
before the global softness and vignette passes. -/
def step6to9Pixel (lastProcessed : Option RGBA) (featheredV bgV eyeV lipV : ℚ)
    (orig : RGBA) : RGBA :=
  let bgP := processBackgroundPixel bgV orig
  let skinP0 := processSkinPixel featheredV eyeV lipV orig bgP
  let skinP1 := sCurvePixel featheredV skinP0
  let skinP2 := temporalBlendPixel featheredV lastProcessed skinP1
  compositePixel featheredV bgV orig bgP skinP2

/-- The full per-pixel frame for a 1×1 canvas: STEPs 6–9 followed by the
vignette (STEP 10's softness loop `for (y = 1.5; y < height - 1.5; ...)`
has no iterations on a 1×1 frame, so it is the identity there). -/
def pipelinePixel1x1 (lastProcessed : Option RGBA) (featheredV bgV eyeV lipV : ℚ)
    (orig : RGBA) : RGBA :=
  vignettePixel (vignetteFactor 1 1 0 0)
    (step6to9Pixel lastProcessed featheredV bgV eyeV lipV orig)

/-! ## The second pipeline variant (lines 2962–3051) -/

/-- The per-pixel priority chain of the second `applyUVFilter` variant
(lines 3000–3032): eyes > lips > eyebrows > skin > background, each branch
inverting the pixel and applying exactly one LUT. -/
def uvPixelV2 (skinV eyeV lipV browV : ℚ) (p : RGBA) : RGBA :=
  let r : ℚ := p.r
  let g : ℚ := p.g
  let b : ℚ := p.b
  let ir := 255 - r
  let ig := 255 - g
  let ib := 255 - b
  if eyeV > 1/10 then
    let uv := applyUVLUT ir ig ib .eye
    { r := toUint8Clamp uv.1, g := toUint8Clamp uv.2.1, b := toUint8Clamp uv.2.2, a := p.a }
  else if lipV > 1/10 then
    let uv := applyUVLUT ir ig ib .lip
    { r := toUint8Clamp uv.1, g := toUint8Clamp uv.2.1, b := toUint8Clamp uv.2.2, a := p.a }
  else if browV > 1/10 then
    let uv := applyUVLUT ir ig ib .hair
    { r := toUint8Clamp (lerp r uv.1 (3/10))
      g := toUint8Clamp (lerp g uv.2.1 (3/10))
      b := toUint8Clamp (lerp b uv.2.2 (3/10))
      a := p.a }
  else if skinV > 1/10 then
    let uv := applyUVLUT ir ig ib .skin
    { r := toUint8Clamp (lerp r uv.1 skinV)
      g := toUint8Clamp (lerp g uv.2.1 skinV)
      b := toUint8Clamp (lerp b uv.2.2 skinV)
      a := p.a }
  else
    let uv := applyUVLUT ir ig ib .hair
    { r := toUint8Clamp uv.1, g := toUint8Clamp uv.2.1, b := toUint8Clamp uv.2.2, a := p.a }

/-- Modelled from the spec's words (§8 priority invariant / §4.6): the
compositor "selects exactly one region's processed color", skin before
background before person-not-skin; used as the specification side of the
C1 refinement. -/
def prioritySelectSpec (maskValue bgMaskValue : ℚ) (orig bgP skinP : RGBA) : RGBA :=
  if maskValue > 0 then { r := skinP.r, g := skinP.g, b := skinP.b, a := orig.a }
  else if bgMaskValue > 1/2 then { r := bgP.r, g := bgP.g, b := bgP.b, a := orig.a }
  else orig

/-- Statement abbreviation: the three `Uint8ClampedArray` stores of one
LUT output, the alpha byte copied from the source pixel (the store pattern
of STEP 7 and of the unblended variant-2 branches). -/
def storeUV (p : RGBA) (c : ℚ × ℚ × ℚ) : RGBA :=
  { r := toUint8Clamp c.1, g := toUint8Clamp c.2.1, b := toUint8Clamp c.2.2, a := p.a }

/-- Statement abbreviation: the stores of `lerp(original, LUT output, t)`
(the blended eyebrow/skin branches of variant 2). -/
def storeUVBlend (p : RGBA) (c : ℚ × ℚ × ℚ) (t : ℚ) : RGBA :=
  { r := toUint8Clamp (lerp (p.r : ℚ) c.1 t)
    g := toUint8Clamp (lerp (p.g : ℚ) c.2.1 t)
    b := toUint8Clamp (lerp (p.b : ℚ) c.2.2 t)
    a := p.a }

/-! ## Theorems -/

/-- **C10**: the whole-frame fallback inversion is an involution — for a
pixel buffer whose channels lie in `[0, 255]`, applying `invertColors`
twice restores every channel; and a single application leaves the alpha
channel of every pixel unchanged. -/
theorem invertColors_involution (buf : List RGBA)
    (hb : ∀ p ∈ buf, p.r ≤ 255 ∧ p.g ≤ 255 ∧ p.b ≤ 255) :
    invertColors (invertColors buf) = buf ∧
    ∀ i : ℕ, ((invertColors buf).get? i).map RGBA.a = (buf.get? i).map RGBA.a := by
  constructor
  · induction buf with
    | nil => rfl
    | cons p rest ih =>
      have hp := hb p (List.mem_cons_self p rest)
      have hrest : ∀ q ∈ rest, q.r ≤ 255 ∧ q.g ≤ 255 ∧ q.b ≤ 255 :=
        fun q hq => hb q (List.mem_cons_of_mem p hq)
      simp only [invertColors, List.map_cons] at *
      rw [List.cons.injEq]
      constructor
      · cases p with
        | mk r g b a =>
          dsimp only at hp
          simp only [invertPixelRGBA, RGBA.mk.injEq]
          refine ⟨?_, ?_, ?_, trivial⟩ <;> omega
      · simpa [invertColors] using ih hrest
  · intro i
    simp only [invertColors, List.get?_eq_getElem?, List.getElem?_map, Option.map_map]
    cases buf[i]? <;> simp [invertPixelRGBA, Function.comp]

/-- Witness for C10 at a concrete one-pixel buffer. -/
theorem invertColors_involution_witness :
    invertColors (invertColors [⟨10, 20, 30, 40⟩]) = [⟨10, 20, 30, 40⟩] :=
  (invertColors_involution [⟨10, 20, 30, 40⟩] (by decide)).1

/-- **C6**: the Color Remapper is a pure, deterministic function of its
arguments — two calls of `applyUVLUT` on componentwise identical
`(r, g, b, regionType)` return identical output channels (the embedded
function consumes nothing but these four arguments, mirroring the source,
which reads no instance state and performs no writes). -/
theorem applyUVLUT_deterministic (r1 g1 b1 r2 g2 b2 : ℚ) (t1 t2 : RegionType)
    (hr : r1 = r2) (hg : g1 = g2) (hbb : b1 = b2) (ht : t1 = t2) :
    applyUVLUT r1 g1 b1 t1 = applyUVLUT r2 g2 b2 t2 := by
  subst hr; subst hg; subst hbb; subst ht; rfl

/-- Witness for C6: two identical skin-region calls at (200, 200, 200). -/
theorem applyUVLUT_deterministic_witness :
    applyUVLUT 200 200 200 .skin = applyUVLUT 200 200 200 .skin :=
  applyUVLUT_deterministic 200 200 200 200 200 200 .skin .skin rfl rfl rfl rfl

/-- **C5 counterexample**: after five consecutive `faceMesh.send` failures
the fallback ("degraded") flag is latched on, but one results callback
carrying a face clears it again — no external reset involved, refuting the
claim that the pipeline stays degraded until an explicit reset. -/
theorem fallback_unlatches_on_detection :
    (onSendError (onSendError (onSendError (onSendError
      (onSendError ⟨0, false⟩))))).fallbackActive = true ∧
    (onFaceMeshResults true (onSendError (onSendError (onSendError (onSendError
      (onSendError ⟨0, false⟩)))))).fallbackActive = false := by
  decide

/-- **C5 (amended)**: after the configured count (5) of consecutive
detector-invocation failures the fallback flag turns on; but a subsequent
results callback reporting a face immediately clears the flag
(auto-recovery), and a successful invocation resets the failure counter —
no external reset is required to leave the degraded mode. -/
theorem degraded_auto_recovery (s t : SchedState) (h : 5 ≤ s.failCount + 1) :
    (onSendError s).fallbackActive = true ∧
    (onFaceMeshResults true t).fallbackActive = false ∧
    (onSendSuccess t).failCount = 0 := by
  refine ⟨?_, ?_, rfl⟩
  · have hrw : (onSendError s).fallbackActive =
        if 5 ≤ s.failCount + 1 then true else s.fallbackActive := rfl
    rw [hrw, if_pos h]
  · simp [onFaceMeshResults]

/-- Witness for C5 (amended) at the concrete failure-threshold state. -/
theorem degraded_auto_recovery_witness :
    5 ≤ (4 : ℕ) + 1 ∧
    ((onSendError ⟨4, false⟩).fallbackActive = true ∧
     (onFaceMeshResults true ⟨0, true⟩).fallbackActive = false ∧
     (onSendSuccess ⟨3, true⟩).failCount = 0) :=
  ⟨by decide, ⟨(degraded_auto_recovery ⟨4, false⟩ ⟨0, true⟩ (by decide)).1,
    (degraded_auto_recovery ⟨4, false⟩ ⟨0, true⟩ (by decide)).2.1,
    (degraded_auto_recovery ⟨4, false⟩ ⟨3, true⟩ (by decide)).2.2⟩⟩

/-- **C4**: evaluation of the stabilizer at the failing input — with a
stored EMA state of one landmark, a new non-empty set of two landmarks
makes the EMA loop dereference `this.emaLandmarks[1]`, which is
`undefined`, so reading `.x` throws a `TypeError` (modelled as `none`):
the claimed defensive no-op fallback does not exist in the code. -/
theorem smoothLandmarks_crash_on_longer_input :
    smoothLandmarks ⟨none, some [⟨0, 0, none⟩], []⟩
      [⟨1, 0, none⟩, ⟨0, 1, none⟩] = none := by
  rfl

/-- Smoothing a landmark with itself is the identity (the EMA fixed
point), for any smoothing constant. -/
theorem smoothPoint_self (alpha : ℚ) (p : Landmark) : smoothPoint alpha p p = p := by
  cases p with
  | mk x y z =>
    cases z with
    | none =>
      simp only [smoothPoint, Landmark.mk.injEq]
      refine ⟨by ring, by ring, trivial⟩
    | some zv =>
      simp only [smoothPoint, Landmark.mk.injEq]
      refine ⟨by ring, by ring, by rw [Option.some.injEq]; ring⟩

/-- Zipping a list with itself under an idempotent combiner returns it. -/
theorem zipWith_self_of_idem {α : Type} (f : α → α → α) (hf : ∀ x, f x x = x) :
    ∀ l : List α, List.zipWith f l l = l := by
  intro l
  induction l with
  | nil => rfl
  | cons x rest ih => rw [List.zipWith_cons_cons, hf x, ih]

/-- **C3**: the Landmark Stabilizer contract — the first non-empty set
initializes the EMA state verbatim and is returned; every later non-empty
set of matching length yields `ema[i] = alpha * ema[i] + (1 - alpha) *
raw[i]` componentwise with `alpha = 0.75` (z only when present on both
sides) and the EMA state is updated to that result; an empty set with
prior state returns the last stabilized set unchanged; and feeding the
same set `L1` twice from a fresh state returns `L1` both times. -/
theorem smoothLandmarks_contract :
    -- (a) first non-empty set: initialize verbatim and return it
    (∀ (s : StabState) (raw : List Landmark), s.emaLandmarks = none → raw ≠ [] →
      smoothLandmarks s raw = some (some raw, { s with emaLandmarks := some raw })) ∧
    -- (b) the smoothing constant is 0.75
    smoothingAlpha = 3/4 ∧
    -- (c) later non-empty set: componentwise EMA, state updated
    (∀ (s : StabState) (ema raw : List Landmark), s.emaLandmarks = some ema →
      raw ≠ [] → ema.length = raw.length →
      smoothLandmarks s raw =
        some (some (List.zipWith (smoothPoint smoothingAlpha) ema raw),
          { s with
            emaLandmarks := some (List.zipWith (smoothPoint smoothingAlpha) ema raw)
            landmarkHistory :=
              pushHistory s.landmarkHistory
                (List.zipWith (smoothPoint smoothingAlpha) ema raw) })) ∧
    -- (d) the componentwise formula, written out
    (∀ p c : Landmark,
      (smoothPoint smoothingAlpha p c).x = 3/4 * p.x + (1 - 3/4) * c.x ∧
      (smoothPoint smoothingAlpha p c).y = 3/4 * p.y + (1 - 3/4) * c.y) ∧
    (∀ (p c : Landmark) (zp zc : ℚ), p.z = some zp → c.z = some zc →
      (smoothPoint smoothingAlpha p c).z = some (3/4 * zp + (1 - 3/4) * zc)) ∧
    -- (e) empty/absent input with prior state: hold the last stabilized set
    (∀ (s : StabState) (ema : List Landmark), s.emaLandmarks = some ema →
      (s.lastLandmarks = none ∨ s.lastLandmarks = some ema) →
      smoothLandmarks s [] = some (some ema, s)) ∧
    -- (f) the same set twice from a fresh state comes back unchanged twice
    (∀ raw : List Landmark, raw ≠ [] →
      ∃ s1, smoothLandmarks ⟨none, none, []⟩ raw = some (some raw, s1) ∧
        ∃ s2, smoothLandmarks s1 raw = some (some raw, s2)) := by
  refine ⟨?_, by norm_num [smoothingAlpha], ?_, ?_, ?_, ?_, ?_⟩
  · intro s raw hema hne
    unfold smoothLandmarks
    rw [if_neg (by simpa [List.length_eq_zero] using hne), hema]
  · intro s ema raw hema hne hlen
    unfold smoothLandmarks
    rw [if_neg (by simpa [List.length_eq_zero] using hne), hema]
    have hnl : ¬ ema.length < raw.length := by omega
    simp only [hnl, if_false]
  · intro p c
    constructor <;> (simp only [smoothPoint, smoothingAlpha]; norm_num)
  · intro p c zp zc hp hc
    simp only [smoothPoint, hp, hc, smoothingAlpha]
    norm_num
  · intro s ema hema hlast
    unfold smoothLandmarks
    rcases hlast with h | h <;> simp [h, hema, Option.orElse]
  · intro raw hne
    have hself : List.zipWith (smoothPoint smoothingAlpha) raw raw = raw :=
      zipWith_self_of_idem (smoothPoint smoothingAlpha)
        (smoothPoint_self smoothingAlpha) raw
    refine ⟨⟨none, some raw, []⟩, ?_, ?_⟩
    · unfold smoothLandmarks
      rw [if_neg (by simpa [List.length_eq_zero] using hne)]
    · refine ⟨⟨none, some raw, pushHistory [] raw⟩, ?_⟩
      unfold smoothLandmarks
      rw [if_neg (by simpa [List.length_eq_zero] using hne)]
      have hnl : ¬ raw.length < raw.length := by omega
      simp only [hnl, if_false, hself]

/-- Witness for C3: a fresh stabilizer absorbs a one-landmark set verbatim,
and a stabilizer holding EMA state returns it on empty input. -/
theorem smoothLandmarks_contract_witness :
    smoothLandmarks ⟨none, none, []⟩ [⟨1, 2, none⟩] =
      some (some [⟨1, 2, none⟩], ⟨none, some [⟨1, 2, none⟩], []⟩) ∧
    smoothLandmarks ⟨none, some [⟨4, 8, none⟩], []⟩ [] =
      some (some [⟨4, 8, none⟩], ⟨none, some [⟨4, 8, none⟩], []⟩) :=
  ⟨smoothLandmarks_contract.1 ⟨none, none, []⟩ [⟨1, 2, none⟩] rfl (by decide),
   smoothLandmarks_contract.2.2.2.2.2.1 ⟨none, some [⟨4, 8, none⟩], []⟩
     [⟨4, 8, none⟩] rfl (Or.inl rfl)⟩

/-- **C8**: the Edge Feather Engine passes pixels whose input mask value is
exactly 0 or exactly 1 through unchanged — only values strictly inside
(0, 1) are touched by the feather blend — for every feather-amount
function, the source's zone-adaptive Gaussian included. -/
theorem applyFeatherToMask_fixes_extremes (featherAmt : ℕ → ℚ → ℚ)
    (mask : List ℚ) (idx : ℕ) (v : ℚ)
    (hv : mask.get? idx = some v) (hb : v = 0 ∨ v = 1) :
    (applyFeatherToMask featherAmt mask).get? idx = some v := by
  have hlen : idx < mask.length := (List.get?_eq_some.mp hv).1
  have hgd : mask.getD idx 0 = v := by
    rw [List.getD_eq_getElem?_getD, ← List.get?_eq_getElem?, hv]
    rfl
  unfold applyFeatherToMask
  rw [List.get?_eq_getElem?, List.getElem?_map, List.getElem?_range hlen]
  simp only [Option.map_some']
  rw [hgd]
  rcases hb with h | h <;> subst h <;> simp [featherMaskValue]

/-- Witness for C8: a mask with a 0-pixel and a 1-pixel, both unchanged
under an arbitrary nonzero feather amount. -/
theorem applyFeatherToMask_fixes_extremes_witness :
    (applyFeatherToMask (fun _ _ => 1) [0, 1]).get? 0 = some 0 ∧
    (applyFeatherToMask (fun _ _ => 1) [0, 1]).get? 1 = some 1 :=
  ⟨applyFeatherToMask_fixes_extremes (fun _ _ => 1) [0, 1] 0 0 rfl (Or.inl rfl),
   applyFeatherToMask_fixes_extremes (fun _ _ => 1) [0, 1] 1 1 rfl (Or.inr rfl)⟩

/-- **C9**: every region-mask builder of the masked pipeline, called with an
empty landmark list (so each region's projected point list is empty after
index filtering), returns the all-zero mask of size `width * height` — the
early `points.length === 0` return — and raises no error, for every
distance function. -/
theorem maskBuilders_empty_landmarks (dist : DistFn) (w h : ℕ) :
    createStrictBinarySkinMask dist [] w h = List.replicate (w * h) 0 ∧
    createEyeMask dist [] w h = List.replicate (w * h) 0 ∧
    createLipMask dist [] w h = List.replicate (w * h) 0 ∧
    createEyebrowMask dist [] w h = List.replicate (w * h) 0 ∧
    createHairMask dist [] w h = List.replicate (w * h) 0 ∧
    createPersonMask [] w h = List.replicate (w * h) 0 :=
  ⟨rfl, rfl, rfl, rfl, rfl, rfl⟩

/-- One channel of the temporal blend lands between its two endpoints:
the convex combination `0.7 * prev + 0.3 * cur` of two byte values stays in
`[min, max]`, and so does its rounded store. -/
theorem temporalBlendChannel_bounds (p c : ℕ) (hp : p ≤ 255) (hc : c ≤ 255) :
    min c p ≤ temporalBlendChannel p c ∧ temporalBlendChannel p c ≤ max c p := by
  have hmv : ((min c p : ℕ) : ℚ) ≤
      colorSmoothingAlpha * (p : ℚ) + (1 - colorSmoothingAlpha) * (c : ℚ) := by
    have h1 : ((min c p : ℕ) : ℚ) ≤ (p : ℚ) := by
      exact_mod_cast Nat.min_le_right c p
    have h2 : ((min c p : ℕ) : ℚ) ≤ (c : ℚ) := by
      exact_mod_cast Nat.min_le_left c p
    unfold colorSmoothingAlpha
    linarith
  have hvM : colorSmoothingAlpha * (p : ℚ) + (1 - colorSmoothingAlpha) * (c : ℚ) ≤
      ((max c p : ℕ) : ℚ) := by
    have h1 : (p : ℚ) ≤ ((max c p : ℕ) : ℚ) := by
      exact_mod_cast Nat.le_max_right c p
    have h2 : (c : ℚ) ≤ ((max c p : ℕ) : ℚ) := by
      exact_mod_cast Nat.le_max_left c p
    unfold colorSmoothingAlpha
    linarith
  constructor
  · exact le_toUint8Clamp (by omega) hmv
  · exact toUint8Clamp_le (by omega) hvM

/-- **C7**: for every masked pixel (`mask > 0`), each channel of the
temporally blended color lies between the current and the previous frame's
value, inclusive — the blend `alpha_t * previous + (1 - alpha_t) * current`
with `alpha_t = 0.7` never overshoots either endpoint. -/
theorem temporalBlend_no_overshoot (maskValue : ℚ) (hm : maskValue > 0)
    (prev cur : RGBA)
    (hp : prev.r ≤ 255 ∧ prev.g ≤ 255 ∧ prev.b ≤ 255)
    (hc : cur.r ≤ 255 ∧ cur.g ≤ 255 ∧ cur.b ≤ 255) :
    colorSmoothingAlpha = 7/10 ∧
    (min cur.r prev.r ≤ (temporalBlendPixel maskValue (some prev) cur).r ∧
      (temporalBlendPixel maskValue (some prev) cur).r ≤ max cur.r prev.r) ∧
    (min cur.g prev.g ≤ (temporalBlendPixel maskValue (some prev) cur).g ∧
      (temporalBlendPixel maskValue (some prev) cur).g ≤ max cur.g prev.g) ∧
    (min cur.b prev.b ≤ (temporalBlendPixel maskValue (some prev) cur).b ∧
      (temporalBlendPixel maskValue (some prev) cur).b ≤ max cur.b prev.b) := by
  have hpix : temporalBlendPixel maskValue (some prev) cur =
      { r := temporalBlendChannel prev.r cur.r
        g := temporalBlendChannel prev.g cur.g
        b := temporalBlendChannel prev.b cur.b
        a := cur.a } := by
    simp only [temporalBlendPixel]
    rw [if_pos hm]
  rw [hpix]
  exact ⟨rfl,
    temporalBlendChannel_bounds prev.r cur.r hp.1 hc.1,
    temporalBlendChannel_bounds prev.g cur.g hp.2.1 hc.2.1,
    temporalBlendChannel_bounds prev.b cur.b hp.2.2 hc.2.2⟩

/-- Witness for C7 at a concrete masked pixel. -/
theorem temporalBlend_no_overshoot_witness :
    min (200 : ℕ) 100 ≤ (temporalBlendPixel 1 (some ⟨100, 0, 255, 9⟩) ⟨200, 255, 0, 9⟩).r ∧
    (temporalBlendPixel 1 (some ⟨100, 0, 255, 9⟩) ⟨200, 255, 0, 9⟩).r ≤ max (200 : ℕ) 100 :=
  (temporalBlend_no_overshoot 1 (by norm_num) ⟨100, 0, 255, 9⟩ ⟨200, 255, 0, 9⟩
    (by decide) (by decide)).2.1

/-- Shared helper: STEPs 6–9 are the identity at a pixel whose feathered
skin mask and background mask are both zero. -/
theorem step6to9Pixel_zero_masks (lastP : Option RGBA) (eyeV lipV : ℚ)
    (orig : RGBA) :
    step6to9Pixel lastP 0 0 eyeV lipV orig = orig := by
  have hbg : processBackgroundPixel 0 orig = orig := by
    unfold processBackgroundPixel
    rw [if_neg (by norm_num)]
  have hskin : processSkinPixel 0 eyeV lipV orig orig = orig := by
    unfold processSkinPixel
    rw [if_neg (by norm_num)]
  have hcurve : sCurvePixel 0 orig = orig := by
    unfold sCurvePixel
    rw [if_neg (by norm_num)]
  have hblend : temporalBlendPixel 0 lastP orig = orig := by
    cases lastP with
    | none => rfl
    | some prev =>
      simp only [temporalBlendPixel]
      rw [if_neg (by norm_num)]
  have hcomp : compositePixel 0 0 orig orig orig = orig := by
    unfold compositePixel
    rw [if_neg (by norm_num), if_neg (by norm_num)]
  show compositePixel 0 0 orig (processBackgroundPixel 0 orig)
    (temporalBlendPixel 0 lastP
      (sCurvePixel 0 (processSkinPixel 0 eyeV lipV orig (processBackgroundPixel 0 orig)))) = orig
  rw [hbg, hskin, hcurve, hblend, hcomp]

/-- The store of `242.25` (the vignetted white channel) is `242`. -/
theorem toUint8Clamp_969_div_4 : toUint8Clamp (969/4) = 242 := by
  have hfl : ⌊(969/4 : ℚ)⌋ = 242 := by
    rw [Int.floor_eq_iff]
    norm_num
  unfold toUint8Clamp
  rw [if_neg (by norm_num), if_neg (by norm_num)]
  unfold roundHalfEven
  rw [ratFloor_eq_floor, hfl]
  rw [if_pos (by norm_num)]
  rfl

/-- **C2 counterexample**: on a 1×1 frame with all-zero skin and background
masks and a pure-white original pixel, the full masked pipeline (STEPs 6–9
followed by the vignette pass that `applyUVFilter` runs before emitting the
frame) returns channel value 242, not 255: the vignette multiplies the
pixel by `1 - 0.05`, so the final frame is NOT exactly the original. -/
theorem pipeline_not_identity_on_zero_masks :
    pipelinePixel1x1 none 0 0 0 0 ⟨255, 255, 255, 255⟩ = ⟨242, 242, 242, 255⟩ ∧
    (⟨242, 242, 242, 255⟩ : RGBA) ≠ ⟨255, 255, 255, 255⟩ := by
  constructor
  · have hv : vignetteFactor 1 1 0 0 = 1/20 := by
      unfold vignetteFactor
      norm_num
    have harith : (((255 : ℕ) : ℚ)) * (1 - 1/20) = 969/4 := by norm_num
    have hclamp : clamp (969/4) = 969/4 := by
      unfold clamp
      rw [min_eq_right (by norm_num), max_eq_right (by norm_num)]
    unfold pipelinePixel1x1
    rw [step6to9Pixel_zero_masks, hv]
    unfold vignettePixel
    rw [show ((⟨255, 255, 255, 255⟩ : RGBA).r : ℚ) = ((255 : ℕ) : ℚ) from rfl]
    rw [harith, hclamp, toUint8Clamp_969_div_4]
  · decide

/-- **C2 (amended)**: at a pixel where the feathered skin mask is 0 and the
background mask is 0, the output of the compositing stage (STEPs 6–9:
background clamp, masked UV remap, masked S-curve, temporal blend,
composite) equals the original pixel exactly; the subsequent global
softness and vignette passes may still alter the pixel, so the claim holds
of the compositor but not of the final emitted frame. -/
theorem step6to9_identity_on_zero_masks (lastP : Option RGBA) (eyeV lipV : ℚ)
    (orig : RGBA) :
    step6to9Pixel lastP 0 0 eyeV lipV orig = orig :=
  step6to9Pixel_zero_masks lastP eyeV lipV orig

/-- A 0-or-1 mask value is a fixed point of the feather blend. -/
theorem featherMaskValue_of_extreme (f : ℚ) {v : ℚ} (hb : v = 0 ∨ v = 1) :
    featherMaskValue f v = v := by
  rcases hb with h | h <;> subst h <;> simp [featherMaskValue]

/-- The feathered mask at a valid index, unfolded. -/
theorem applyFeatherToMask_get?_eq (featherAmt : ℕ → ℚ → ℚ) (mask : List ℚ)
    (idx : ℕ) (h : idx < mask.length) :
    (applyFeatherToMask featherAmt mask).get? idx =
      some (featherMaskValue (featherAmt idx (mask.getD idx 0)) (mask.getD idx 0)) := by
  unfold applyFeatherToMask
  rw [List.get?_eq_getElem?, List.getElem?_map, List.getElem?_range h]
  rfl

theorem applyFeatherToMask_length (featherAmt : ℕ → ℚ → ℚ) (mask : List ℚ) :
    (applyFeatherToMask featherAmt mask).length = mask.length := by
  unfold applyFeatherToMask
  rw [List.length_map, List.length_range]

/-- **C1**: per-pixel region selection is exclusive and priority-ordered,
never an additive mix of two regions' processed colors:
(1) the strict binary skin mask holds only 0 or 1;
(2) feathering such a mask is the identity, so the compositor's mask
weights are 0 or 1;
(3) on 0/1 weights the compositor equals the spec's exclusive selector
(skin's processed color, else background's, else the untouched original —
never a blend of two);
(4) inside the mask, exactly one LUT branch fires, eyes before lips before
skin;
(5) the second pipeline variant picks exactly one branch per pixel in the
order eyes > lips > eyebrows > skin > background. -/
theorem compositor_priority_selection :
    (∀ (dist : DistFn) (landmarks : List Landmark) (w h : ℕ) (v : ℚ),
      v ∈ createStrictBinarySkinMask dist landmarks w h → v = 0 ∨ v = 1) ∧
    (∀ (featherAmt : ℕ → ℚ → ℚ) (mask : List ℚ),
      (∀ v ∈ mask, v = 0 ∨ v = 1) → applyFeatherToMask featherAmt mask = mask) ∧
    (∀ (maskValue bgMaskValue : ℚ) (orig bgP skinP : RGBA),
      (maskValue = 0 ∨ maskValue = 1) →
      skinP.r ≤ 255 → skinP.g ≤ 255 → skinP.b ≤ 255 →
      compositePixel maskValue bgMaskValue orig bgP skinP =
        prioritySelectSpec maskValue bgMaskValue orig bgP skinP) ∧
    (∀ (mv ev lv : ℚ) (orig bgP : RGBA), mv > 0 →
      (ev > 1/10 →
        processSkinPixel mv ev lv orig bgP =
          storeUV orig (applyUVLUT (255 - (orig.r : ℚ)) (255 - (orig.g : ℚ))
            (255 - (orig.b : ℚ)) .eye)) ∧
      (¬ ev > 1/10 → lv > 1/10 →
        processSkinPixel mv ev lv orig bgP =
          storeUV orig (applyUVLUT (255 - (orig.r : ℚ)) (255 - (orig.g : ℚ))
            (255 - (orig.b : ℚ)) .lip)) ∧
      (¬ ev > 1/10 → ¬ lv > 1/10 →
        processSkinPixel mv ev lv orig bgP =
          storeUV orig (applyUVLUT (255 - (orig.r : ℚ)) (255 - (orig.g : ℚ))
            (255 - (orig.b : ℚ)) .skin))) ∧
    (∀ (sv ev lv bv : ℚ) (p : RGBA),
      (ev > 1/10 →
        uvPixelV2 sv ev lv bv p =
          storeUV p (applyUVLUT (255 - (p.r : ℚ)) (255 - (p.g : ℚ))
            (255 - (p.b : ℚ)) .eye)) ∧
      (¬ ev > 1/10 → lv > 1/10 →
        uvPixelV2 sv ev lv bv p =
          storeUV p (applyUVLUT (255 - (p.r : ℚ)) (255 - (p.g : ℚ))
            (255 - (p.b : ℚ)) .lip)) ∧
      (¬ ev > 1/10 → ¬ lv > 1/10 → bv > 1/10 →
        uvPixelV2 sv ev lv bv p =
          storeUVBlend p (applyUVLUT (255 - (p.r : ℚ)) (255 - (p.g : ℚ))
            (255 - (p.b : ℚ)) .hair) (3/10)) ∧
      (¬ ev > 1/10 → ¬ lv > 1/10 → ¬ bv > 1/10 → sv > 1/10 →
        uvPixelV2 sv ev lv bv p =
          storeUVBlend p (applyUVLUT (255 - (p.r : ℚ)) (255 - (p.g : ℚ))
            (255 - (p.b : ℚ)) .skin) sv) ∧
      (¬ ev > 1/10 → ¬ lv > 1/10 → ¬ bv > 1/10 → ¬ sv > 1/10 →
        uvPixelV2 sv ev lv bv p =
          storeUV p (applyUVLUT (255 - (p.r : ℚ)) (255 - (p.g : ℚ))
            (255 - (p.b : ℚ)) .hair))) := by
  refine ⟨?_, ?_, ?_, ?_, ?_⟩
  · -- (1) strict mask is binary
    intro dist landmarks w h v hv
    simp only [createStrictBinarySkinMask] at hv
    by_cases hpts : (projectPoints faceOutlineIndices landmarks w h).length = 0
    · rw [if_pos hpts] at hv
      exact Or.inl (List.eq_of_mem_replicate hv)
    · rw [if_neg hpts] at hv
      rcases List.mem_map.mp hv with ⟨idx, _, hveq⟩
      rw [← hveq]
      split_ifs
      · exact Or.inr rfl
      · exact Or.inl rfl
  · -- (2) feathering a 0/1 mask is the identity
    intro featherAmt mask hbin
    apply List.ext_getElem?
    intro n
    by_cases hn : n < mask.length
    · have hmem : mask.getD n 0 ∈ mask := by
        rw [List.getD_eq_getElem?_getD]
        rw [List.getElem?_eq_getElem hn]
        exact List.getElem_mem hn
      have := applyFeatherToMask_get?_eq featherAmt mask n hn
      rw [List.get?_eq_getElem?] at this
      rw [this, featherMaskValue_of_extreme _ (hbin _ hmem)]
      rw [List.getD_eq_getElem?_getD, List.getElem?_eq_getElem hn]
      rfl
    · have h1 : (applyFeatherToMask featherAmt mask)[n]? = none :=
        List.getElem?_eq_none (by rw [applyFeatherToMask_length]; omega)
      have h2 : mask[n]? = none := List.getElem?_eq_none (by omega)
      rw [h1, h2]
  · -- (3) compositor = exclusive priority selector on 0/1 weights
    intro maskValue bgMaskValue orig bgP skinP hmask hr hg hb
    rcases hmask with h | h <;> subst h
    · unfold compositePixel prioritySelectSpec
      norm_num
    · unfold compositePixel prioritySelectSpec
      norm_num [lerp_one]
      rw [toUint8Clamp_natCast hr, toUint8Clamp_natCast hg, toUint8Clamp_natCast hb]
      exact ⟨rfl, rfl, rfl⟩
  · -- (4) in-mask LUT choice: eyes > lips > skin
    intro mv ev lv orig bgP hmv
    refine ⟨?_, ?_, ?_⟩
    · intro hev
      simp only [processSkinPixel, storeUV]
      rw [if_pos hmv, if_pos hev]
    · intro hev hlv
      simp only [processSkinPixel, storeUV]
      rw [if_pos hmv, if_neg hev, if_pos hlv]
    · intro hev hlv
      simp only [processSkinPixel, storeUV]
      rw [if_pos hmv, if_neg hev, if_neg hlv]
  · -- (5) variant-2 chain: eyes > lips > eyebrows > skin > background
    intro sv ev lv bv p
    refine ⟨?_, ?_, ?_, ?_, ?_⟩
    · intro hev
      simp only [uvPixelV2, storeUV]
      rw [if_pos hev]
    · intro hev hlv
      simp only [uvPixelV2, storeUV]
      rw [if_neg hev, if_pos hlv]
    · intro hev hlv hbv
      simp only [uvPixelV2, storeUVBlend]
      rw [if_neg hev, if_neg hlv, if_pos hbv]
    · intro hev hlv hbv hsv
      simp only [uvPixelV2, storeUVBlend]
      rw [if_neg hev, if_neg hlv, if_neg hbv, if_pos hsv]
    · intro hev hlv hbv hsv
      simp only [uvPixelV2, storeUV]
      rw [if_neg hev, if_neg hlv, if_neg hbv, if_neg hsv]

/-- Witness for C1: the compositor's exclusive selection at concrete 0/1
mask weights. -/
theorem compositor_priority_selection_witness :
    compositePixel 0 1 ⟨9, 9, 9, 7⟩ ⟨1, 2, 3, 7⟩ ⟨4, 5, 6, 7⟩ =
      prioritySelectSpec 0 1 ⟨9, 9, 9, 7⟩ ⟨1, 2, 3, 7⟩ ⟨4, 5, 6, 7⟩ ∧
    compositePixel 1 0 ⟨9, 9, 9, 7⟩ ⟨1, 2, 3, 7⟩ ⟨4, 5, 6, 7⟩ =
      prioritySelectSpec 1 0 ⟨9, 9, 9, 7⟩ ⟨1, 2, 3, 7⟩ ⟨4, 5, 6, 7⟩ :=
  ⟨compositor_priority_selection.2.2.1 0 1 ⟨9, 9, 9, 7⟩ ⟨1, 2, 3, 7⟩ ⟨4, 5, 6, 7⟩
      (Or.inl rfl) (by decide) (by decide) (by decide),
   compositor_priority_selection.2.2.1 1 0 ⟨9, 9, 9, 7⟩ ⟨1, 2, 3, 7⟩ ⟨4, 5, 6, 7⟩
      (Or.inr rfl) (by decide) (by decide) (by decide)⟩

end UVFilter
